import Mathlib

/-!
Shallow embedding of the return-calculation and snapshot-reconciliation
logic of the MCO-NextJS portfolio tracker. Nullable JavaScript numbers are
modelled as `Option ℚ`; the JavaScript truthiness test on such a value
(false for null, undefined and 0) is made explicit, since the source uses
`||` and `!` on prices throughout.
-/

/-- Truthiness of a nullable number in JavaScript: null, undefined and 0 are
falsy, every other number is truthy (NaN does not arise in the modelled
data). -/
def jsTruthy : Option ℚ → Bool
  | none => false
  | some v => v != 0

/-- Negation `!x` of a nullable number, as used in the guards of the source. -/
def jsFalsy (x : Option ℚ) : Bool := !jsTruthy x

/-- JavaScript `a || b` on nullable numbers: `a` when truthy, else `b`. This
is the override-precedence operator the source actually uses. -/
def jsOr (a b : Option ℚ) : Option ℚ := if jsTruthy a then a else b

/-- JavaScript `a ?? b` on nullable numbers: `a` when present (even 0), else
`b`. The specification text states the override precedence with this
operator; it is defined here only to compare it with `jsOr`. -/
def jsNullish (a b : Option ℚ) : Option ℚ :=
  match a with
  | some v => some v
  | none => b

/-- Return calculator of the positions table, from `calculateReturn` in
src/pages/positions.tsx (lines 98-104): the override price is combined with
the fetched price by `||`, a falsy (absent or zero) effective start or end
yields null, and otherwise the percentage return is computed. -/
def calculateReturn (startPrice endPrice overrideStart overrideEnd : Option ℚ) :
    Option ℚ :=
  let actualStart := jsOr overrideStart startPrice
  let actualEnd := jsOr overrideEnd endPrice
  if jsFalsy actualStart || jsFalsy actualEnd then none
  else some ((actualEnd.getD 0 - actualStart.getD 0) / actualStart.getD 0 * 100)

/-- Fixed-point rendering of a rational to one fractional digit, following
Number.prototype.toFixed(1): a leading minus sign for negative inputs, then
the magnitude rounded to the nearest tenth with ties rounded up. -/
def toFixed1 (x : ℚ) : String :=
  let s := if x < 0 then "-" else ""
  let y := if x < 0 then -x else x
  let n : ℤ := ⌊y * 10 + 1 / 2⌋
  s ++ toString (n.natAbs / 10) ++ "." ++ toString (n.natAbs % 10)

/-- Result record of the HTML-export return formatter: the numeric return
(field `return` in the source) and the display string. -/
structure FormatResult where
  ret : ℚ
  formatted : String
deriving DecidableEq

/-- HTML-export return formatter, from `formatReturn` in
src/pages/snapshots/[id].tsx (lines 340-344): a falsy start or end price
(or a start price equal to 0, a redundant third guard kept from the source)
yields the record `{return: 0, formatted: "-"}`; otherwise the
dividend-inclusive return and its signed percentage string. -/
def formatReturn (startPrice endPrice : Option ℚ) (dividends : ℚ) : FormatResult :=
  if jsFalsy startPrice || jsFalsy endPrice || decide (startPrice = some 0) then
    ⟨0, "-"⟩
  else
    let totalReturn :=
      ((endPrice.getD 0 + dividends) - startPrice.getD 0) / startPrice.getD 0 * 100
    ⟨totalReturn, (if totalReturn ≥ 0 then "+" else "") ++ toFixed1 totalReturn ++ "%"⟩

/-- Banding of a computed return for the HTML report, from `getReturnClass`
in src/pages/snapshots/[id].tsx (lines 332-338). -/
def getReturnClass (returnPct : ℚ) : String :=
  if returnPct < 0 then "negative"
  else if returnPct < 15 then "low-positive"
  else if returnPct < 30 then "positive"
  else if returnPct < 50 then "more-positive"
  else "very-positive"

/-- Fields of a snapshot-position row used by the summary aggregator. -/
structure SnapshotPositionRow where
  start_price : Option ℚ
  end_price : Option ℚ
  dividends_paid : Option ℚ
deriving DecidableEq

/-- Coercion `Number(x) || 0` applied to the nullable `dividends_paid`
column: null becomes 0 and a numeric value passes through (0 stays 0). -/
def numberOr0 (x : Option ℚ) : ℚ := x.getD 0

/-- Per-position dividend-inclusive return computed inside `summaryStats`
in src/pages/snapshots/[id].tsx (lines 706-717): a falsy start or end price
(or a start price equal to 0) contributes 0, otherwise
`((endPrice + dividends) - startPrice) / startPrice * 100`. -/
def calculatedReturn (p : SnapshotPositionRow) : ℚ :=
  let dividends := numberOr0 p.dividends_paid
  if jsFalsy p.start_price || jsFalsy p.end_price || decide (p.start_price = some 0) then 0
  else
    ((p.end_price.getD 0 + dividends) - p.start_price.getD 0) / p.start_price.getD 0 * 100

/-- Output record of the snapshot summary aggregator. -/
structure SummaryStats where
  totalPositions : ℕ
  winners : ℕ
  losers : ℕ
  totalDividends : ℚ
  averageReturn : ℚ
deriving DecidableEq

/-- Snapshot summary aggregator, from the `summaryStats` memo in
src/pages/snapshots/[id].tsx (lines 692-731): the empty list maps to the
all-zero record; otherwise winners and losers count strictly positive and
strictly negative per-position returns, total dividends sum the coerced
`dividends_paid`, and the average divides the sum of per-position returns
by the number of positions. -/
def summaryStats (positions : List SnapshotPositionRow) : SummaryStats :=
  if positions.length = 0 then ⟨0, 0, 0, 0, 0⟩
  else
    let totalPositions := positions.length
    let positionsWithReturns := positions.map (fun p => (p, calculatedReturn p))
    let winners := (positionsWithReturns.filter (fun q => decide (q.2 > 0))).length
    let losers := (positionsWithReturns.filter (fun q => decide (q.2 < 0))).length
    let totalDividends :=
      positions.foldl (fun sum p => sum + numberOr0 p.dividends_paid) 0
    let averageReturn :=
      (positionsWithReturns.foldl (fun sum q => sum + q.2) 0) / (positions.length : ℚ)
    ⟨totalPositions, winners, losers, totalDividends, averageReturn⟩

/-- Per-position dividend-inclusive return as an optional value, written
from the claim wording for comparison with `calculatedReturn`: none when
the start or end price is missing or zero, otherwise the dividend-inclusive
percentage return. -/
def positionReturnOpt (p : SnapshotPositionRow) : Option ℚ :=
  match p.start_price, p.end_price with
  | some s, some e =>
      if s = 0 ∨ e = 0 then none
      else some (((e + numberOr0 p.dividends_paid) - s) / s * 100)
  | _, _ => none

/-- Row of the positions table, with the fields the delete handler uses. -/
structure PositionRow where
  id : ℕ
  ticker : String
deriving DecidableEq

/-- Row of the snapshots table, with the field the delete handler uses. -/
structure SnapshotRow where
  id : ℕ
deriving DecidableEq

/-- Row of the snapshot_positions table, with the fields the delete
handlers could match on. -/
structure SnapshotPositionRec where
  id : ℕ
  snapshot_id : ℕ
  ticker : String
deriving DecidableEq

/-- State of the three tables the delete handlers touch. -/
structure Database where
  positions : List PositionRow
  snapshots : List SnapshotRow
  snapshot_positions : List SnapshotPositionRec
deriving DecidableEq

/-- Position delete handler, from `handleDeletePosition` in
src/pages/positions.tsx (lines 121-158). The two Boolean arguments model
whether each of the two store deletes reports an error. The handler first
deletes every snapshot_positions row whose ticker equals the ticker of the
position (across all snapshots); on error it stops with the state
unchanged. Only then does it delete the position row by id; on error the
state after the first delete is kept. -/
def handleDeletePosition (db : Database) (position : PositionRow)
    (spErr posErr : Bool) : Database :=
  if spErr then db
  else
    let db1 : Database :=
      ⟨db.positions, db.snapshots,
        db.snapshot_positions.filter (fun sp => sp.ticker != position.ticker)⟩
    if posErr then db1
    else
      ⟨db1.positions.filter (fun p => p.id != position.id), db1.snapshots,
        db1.snapshot_positions⟩

/-- Snapshot delete handler, from `handleDeleteSnapshot` in
src/pages/snapshots/[id].tsx (lines 216-239) and the identical handler in
src/pages/snapshots/index.tsx (lines 213-234). The Boolean argument models
whether the single store delete reports an error. The handler issues one
delete, on the snapshots table by id; it never touches snapshot_positions. -/
def handleDeleteSnapshot (db : Database) (snapshot : SnapshotRow)
    (err : Bool) : Database :=
  if err then db
  else
    ⟨db.positions, db.snapshots.filter (fun s => s.id != snapshot.id),
      db.snapshot_positions⟩

/-- C9: on the empty list of snapshot positions the summary aggregator
returns exactly the all-zero record, not an error or an absent value. -/
theorem summaryStats_empty : summaryStats [] = ⟨0, 0, 0, 0, 0⟩ := rfl

/-- Helper: a left fold accumulating additions equals the starting value
plus the sum of the mapped list. -/
theorem foldl_add_eq_sum {α : Type} (f : α → ℚ) (l : List α) (a : ℚ) :
    l.foldl (fun acc x => acc + f x) a = a + (l.map f).sum := by
  induction l generalizing a with
  | nil => simp
  | cons x xs ih => simp [ih, add_assoc]

/-- Helper: the per-position return of the aggregator is the optional
dividend-inclusive return with none collapsed to 0. -/
theorem calculatedReturn_eq_positionReturnOpt (p : SnapshotPositionRow) :
    calculatedReturn p = (positionReturnOpt p).getD 0 := by
  obtain ⟨sp, ep, d⟩ := p
  cases sp with
  | none => simp [calculatedReturn, positionReturnOpt, jsFalsy, jsTruthy]
  | some s =>
    cases ep with
    | none => simp [calculatedReturn, positionReturnOpt, jsFalsy, jsTruthy]
    | some e =>
      by_cases hs : s = 0
      · subst hs
        simp [calculatedReturn, positionReturnOpt, jsFalsy, jsTruthy]
      · by_cases he : e = 0
        · subst he
          simp [calculatedReturn, positionReturnOpt, jsFalsy, jsTruthy, hs]
        · simp [calculatedReturn, positionReturnOpt, jsFalsy, jsTruthy, hs, he]

/-- C1 counterexample: with a fetched end price that is present but zero
(start 100, end 0, no overrides) the claimed formula would give -100, yet
the calculator returns null; moreover a zero start override (override 0,
fetched start 50) is ignored in favor of the fetched price instead of
winning as the nullish-coalescing selection would demand. -/
theorem calculateReturn_nullish_counterexample :
    calculateReturn (some 100) (some 0) none none ≠ some ((0 - 100) / 100 * 100) ∧
    calculateReturn (some 50) (some 100) (some 0) none = some ((100 - 50) / 50 * 100) := by
  constructor
  · simp [calculateReturn, jsOr, jsFalsy, jsTruthy]
  · norm_num [calculateReturn, jsOr, jsFalsy, jsTruthy]

/-- C1 amended: the calculator combines each override with its fetched
price by JavaScript or (the override wins only when present and non-zero;
a zero override falls back to the fetched price), and whenever both
effective prices so selected are present and non-zero it returns
(effectiveEnd - effectiveStart) / effectiveStart * 100. -/
theorem calculateReturn_override_formula (sp ep os oe : Option ℚ) (s e : ℚ)
    (hs : jsOr os sp = some s) (he : jsOr oe ep = some e)
    (hs0 : s ≠ 0) (he0 : e ≠ 0) :
    calculateReturn sp ep os oe = some ((e - s) / s * 100) := by
  simp only [calculateReturn, hs, he]
  simp [jsFalsy, jsTruthy, hs0, he0]

theorem calculateReturn_override_formula_witness :
    calculateReturn (some 100) (some 200) (some 150) none =
      some ((200 - 150) / 150 * 100) :=
  calculateReturn_override_formula (some 100) (some 200) (some 150) none 150 200
    (by decide) (by decide) (by norm_num) (by norm_num)

/-- C3: whenever the effective start or the effective end price of the
calculator is absent, the calculator returns null (never zero, and the
function is total so no exception arises), and the HTML-export formatter
renders a missing start or end price as the dash marker. -/
theorem missing_price_gives_no_return (sp ep os oe : Option ℚ) (d : ℚ)
    (h : jsOr os sp = none ∨ jsOr oe ep = none) :
    calculateReturn sp ep os oe = none ∧
    (formatReturn none ep d).formatted = "-" ∧
    (formatReturn sp none d).formatted = "-" := by
  refine ⟨?_, ?_, ?_⟩
  · rcases h with h | h <;> simp [calculateReturn, h, jsFalsy, jsTruthy]
  · simp [formatReturn, jsFalsy, jsTruthy]
  · simp [formatReturn, jsFalsy, jsTruthy]

theorem missing_price_gives_no_return_witness :
    calculateReturn none (some 100) none none = none ∧
    (formatReturn none (some 100) 0).formatted = "-" ∧
    (formatReturn none none 0).formatted = "-" :=
  missing_price_gives_no_return none (some 100) none none 0 (Or.inl (by decide))

/-- C5: whenever the effective start price the calculator selects is
present but equal to zero, the calculator returns null rather than a
division result, and the formatter renders a zero start price as the dash
marker; the division is therefore never executed with a zero divisor. -/
theorem zero_start_gives_no_return (sp ep os oe : Option ℚ) (d : ℚ)
    (h : jsOr os sp = some 0) :
    calculateReturn sp ep os oe = none ∧
    (formatReturn (some 0) ep d).formatted = "-" := by
  constructor
  · simp only [calculateReturn, h]
    simp [jsFalsy, jsTruthy]
  · simp [formatReturn, jsFalsy, jsTruthy]

theorem zero_start_gives_no_return_witness :
    calculateReturn (some 0) (some 100) none none = none ∧
    (formatReturn (some 0) (some 100) 0).formatted = "-" :=
  zero_start_gives_no_return (some 0) (some 100) none none 0 (by decide)

/-- C10: whenever the effective end price the calculator selects is
present but equal to zero, the calculator returns null exactly as for an
absent end price, and the formatter maps a zero end price to the very same
dash record as a null end price, instead of computing -100 percent. -/
theorem zero_end_price_like_absent (sp ep os oe : Option ℚ) (d : ℚ)
    (h : jsOr oe ep = some 0) :
    calculateReturn sp ep os oe = none ∧
    calculateReturn sp ep os oe = calculateReturn sp none os oe ∧
    formatReturn sp (some 0) d = formatReturn sp none d ∧
    (formatReturn sp (some 0) d).formatted = "-" := by
  have hoe : jsTruthy oe = false := by
    by_cases hc : jsTruthy oe
    · rw [jsOr, if_pos hc] at h
      rw [h] at hc
      simp [jsTruthy] at hc
    · simpa using hc
  have h1 : calculateReturn sp ep os oe = none := by
    simp only [calculateReturn, h]
    simp [jsFalsy, jsTruthy]
  have h2 : calculateReturn sp none os oe = none := by
    have he2 : jsOr oe none = none := by
      rw [jsOr, if_neg]
      simp [hoe]
    simp only [calculateReturn, he2]
    simp [jsFalsy, jsTruthy]
  exact ⟨h1, h1.trans h2.symm,
    by simp [formatReturn, jsFalsy, jsTruthy],
    by simp [formatReturn, jsFalsy, jsTruthy]⟩

theorem zero_end_price_like_absent_witness :
    calculateReturn (some 100) (some 0) none none = none ∧
    calculateReturn (some 100) (some 0) none none =
      calculateReturn (some 100) none none none ∧
    formatReturn (some 100) (some 0) 0 = formatReturn (some 100) none 0 ∧
    (formatReturn (some 100) (some 0) 0).formatted = "-" :=
  zero_end_price_like_absent (some 100) (some 0) none none 0 (by decide)

/-- C7: the HTML-report band is a pure function of the return value with
inclusive-lower, exclusive-upper thresholds at 0, 15, 30 and 50, and a
return of exactly 20 percent falls in the positive band. -/
theorem getReturnClass_bands (r : ℚ) :
    (r < 0 → getReturnClass r = "negative") ∧
    (0 ≤ r → r < 15 → getReturnClass r = "low-positive") ∧
    (15 ≤ r → r < 30 → getReturnClass r = "positive") ∧
    (30 ≤ r → r < 50 → getReturnClass r = "more-positive") ∧
    (50 ≤ r → getReturnClass r = "very-positive") ∧
    getReturnClass 20 = "positive" := by
  unfold getReturnClass
  refine ⟨?_, ?_, ?_, ?_, ?_, ?_⟩ <;> intros <;> split_ifs <;>
    first
      | rfl
      | linarith

theorem getReturnClass_bands_witness :
    getReturnClass (-1) = "negative" ∧ getReturnClass 7 = "low-positive" ∧
    getReturnClass 20 = "positive" ∧ getReturnClass 40 = "more-positive" ∧
    getReturnClass 75 = "very-positive" :=
  ⟨(getReturnClass_bands (-1)).1 (by norm_num),
   (getReturnClass_bands 7).2.1 (by norm_num) (by norm_num),
   (getReturnClass_bands 20).2.2.1 (by norm_num) (by norm_num),
   (getReturnClass_bands 40).2.2.2.1 (by norm_num) (by norm_num),
   (getReturnClass_bands 75).2.2.2.2.1 (by norm_num)⟩

/-- C6 counterexample: a present start price of 100, a present end price of
0 and dividends of 5 would give -95 under the claimed formula, but the
formatter returns the zero-and-dash record instead. -/
theorem formatReturn_zero_end_counterexample :
    (formatReturn (some 100) (some 0) 5).ret ≠ ((0 + 5) - 100) / 100 * 100 := by
  norm_num [formatReturn, jsFalsy, jsTruthy]

/-- C6 amended: for a present start price different from zero and a present
non-zero end price, the dividend-inclusive return of the formatter and of
the aggregator equals ((endPrice + dividends) - startPrice) / startPrice *
100, with an absent dividends value defaulting to 0; a zero end price
instead yields the unavailable record. -/
theorem dividend_return_formula (s e d : ℚ) (hs : 0 < s) (he : e ≠ 0) :
    (formatReturn (some s) (some e) d).ret = ((e + d) - s) / s * 100 ∧
    calculatedReturn ⟨some s, some e, some d⟩ = ((e + d) - s) / s * 100 ∧
    calculatedReturn ⟨some s, some e, none⟩ = ((e + 0) - s) / s * 100 := by
  have hs0 : s ≠ 0 := ne_of_gt hs
  refine ⟨?_, ?_, ?_⟩ <;>
    simp [formatReturn, calculatedReturn, jsFalsy, jsTruthy, numberOr0, hs0, he]

theorem dividend_return_formula_witness :
    (formatReturn (some 100) (some 120) 5).ret = ((120 + 5) - 100) / 100 * 100 ∧
    ((120 + 5 : ℚ) - 100) / 100 * 100 = 25 :=
  ⟨(dividend_return_formula 100 120 5 (by norm_num) (by norm_num)).1, by norm_num⟩

/-- C4: on a non-empty list the average return of the aggregator is the
sum of the per-position dividend-inclusive returns, with an unavailable
return (missing or zero start or end price) contributing 0, divided by the
total number of positions. -/
theorem averageReturn_mean (ps : List SnapshotPositionRow) (h : ps ≠ []) :
    (summaryStats ps).averageReturn =
      (ps.map (fun p => (positionReturnOpt p).getD 0)).sum / (ps.length : ℚ) := by
  have hlen : ¬ps.length = 0 := by simpa [List.length_eq_zero] using h
  have hfun : calculatedReturn = fun p => (positionReturnOpt p).getD 0 :=
    funext calculatedReturn_eq_positionReturnOpt
  unfold summaryStats
  rw [if_neg hlen]
  simp only [List.foldl_map]
  rw [foldl_add_eq_sum calculatedReturn ps 0, zero_add, hfun]

theorem averageReturn_mean_witness :
    (summaryStats [⟨some 100, some 120, some 5⟩, ⟨none, some 50, none⟩]).averageReturn =
      (([⟨some 100, some 120, some 5⟩, ⟨none, some 50, none⟩] :
          List SnapshotPositionRow).map (fun p => (positionReturnOpt p).getD 0)).sum /
        (([⟨some 100, some 120, some 5⟩, ⟨none, some 50, none⟩] :
          List SnapshotPositionRow).length : ℚ) :=
  averageReturn_mean [⟨some 100, some 120, some 5⟩, ⟨none, some 50, none⟩] (by decide)

/-- C2 counterexample: deleting the snapshot with id 1 from a store whose
snapshot_positions table holds a row belonging to that snapshot removes the
snapshot row yet leaves the snapshot_positions row in place, so no
delete-then-delete cleanup happens. -/
theorem handleDeleteSnapshot_orphans_counterexample :
    (handleDeleteSnapshot ⟨[], [⟨1⟩], [⟨10, 1, "AAPL"⟩]⟩ ⟨1⟩ false).snapshots = [] ∧
    (handleDeleteSnapshot ⟨[], [⟨1⟩], [⟨10, 1, "AAPL"⟩]⟩ ⟨1⟩ false).snapshot_positions =
      [⟨10, 1, "AAPL"⟩] := by
  decide

/-- C2 amended: the snapshot delete handler never touches the
snapshot_positions or positions tables; it issues exactly one delete,
which removes the snapshots rows with the given id when the store reports
no error and leaves the store unchanged otherwise. -/
theorem handleDeleteSnapshot_only_snapshot_row (db : Database) (s : SnapshotRow)
    (err : Bool) :
    (handleDeleteSnapshot db s err).snapshot_positions = db.snapshot_positions ∧
    (handleDeleteSnapshot db s err).positions = db.positions ∧
    handleDeleteSnapshot db s true = db ∧
    (handleDeleteSnapshot db s false).snapshots =
      db.snapshots.filter (fun t => t.id != s.id) := by
  cases err <;> simp [handleDeleteSnapshot]

/-- C8: the position delete handler first deletes the snapshot_positions
rows matching the ticker of the position across all snapshots; when that
delete errors the whole store, in particular the position row, is left
unchanged; when it succeeds the position row is deleted by id only if the
second delete also succeeds, and the snapshots table is never touched. -/
theorem handleDeletePosition_order (db : Database) (position : PositionRow)
    (posErr : Bool) :
    handleDeletePosition db position true posErr = db ∧
    (handleDeletePosition db position false posErr).snapshot_positions =
      db.snapshot_positions.filter (fun sp => sp.ticker != position.ticker) ∧
    (handleDeletePosition db position false true).positions = db.positions ∧
    (handleDeletePosition db position false false).positions =
      db.positions.filter (fun p => p.id != position.id) ∧
    (handleDeletePosition db position false posErr).snapshots = db.snapshots := by
  cases posErr <;> simp [handleDeletePosition]
